import Mathlib

/-!
Verification of the khygl rendering support layer (Rust) against its
natural-language specification, via a shallow embedding of the relevant
source functions in Lean.

Conventions of the embedding:
* Rust `usize` becomes `Nat`, `isize` becomes `Int` (the quantities
  involved stay far from the overflow range in every claim).
* A Rust `panic!`/`assert!`/`expect` is the `Outcome.panic` constructor;
  a recoverable `Err(e)` is `Outcome.err`; normal return is `Outcome.ok`.
* GPU driver calls are modelled by an explicit state (`GlState`) carrying
  a fresh-handle counter, the sets of live shader/program objects and a
  trace of issued GL commands; compile/link success and logs come from an
  oracle (`GlOracle`) quantified over in the theorems, since they depend
  on the external driver.
* `check_gl` only propagates driver error codes; the driver model never
  raises one, so the `Err` path of `check_gl` is not represented.
-/

/-- Outcome of running a fallible Rust function: normal return,
recoverable `Err` (boxed error, carried as its message string), or a
process-aborting panic (carried as the panic message). -/
inductive Outcome (α : Type) where
  | ok : α → Outcome α
  | err : String → Outcome α
  | panic : String → Outcome α
  deriving DecidableEq, Repr

/-! ## CpuTexture (src/texture.rs) -/

/-- Embeds `CpuTexture<T>` from src/texture.rs: a flat data vector and a
2D size.  The invariant field mirrors the `assert!(data.len() >= size.0 *
size.1)` in `CpuTexture::new`, which every constructor establishes. -/
structure CpuTexture (α : Type) where
  data : List α
  size : Nat × Nat
  hlen : size.1 * size.2 ≤ data.length

/-- Embeds `impl Index<(usize, usize)> for CpuTexture` (src/texture.rs):
panics (here: `none`) when `index.0 >= size.0 || index.1 >= size.1`,
otherwise reads `data[size.0 * index.1 + index.0]`. -/
def CpuTexture.index (t : CpuTexture α) (i : Nat × Nat) : Option α :=
  if t.size.1 ≤ i.1 ∨ t.size.2 ≤ i.2 then
    none
  else
    t.data.get? (t.size.1 * i.2 + i.1)

/-- Embeds `CpuTexture::get_wrapped` (src/texture.rs): wraps each
coordinate with `rem_euclid` by the corresponding size (Rust's
`rem_euclid` on `isize` is `Int.emod` for a positive modulus) and then
indexes.  Rust's `rem_euclid` panics when the modulus is zero; the claim
only concerns sizes ≥ 1, so the theorem carries that hypothesis. -/
def CpuTexture.get_wrapped (t : CpuTexture α) (x y : Int) : Option α :=
  t.index ((x.emod t.size.1).toNat, (y.emod t.size.2).toNat)

/-- Embeds `CpuTexture::data` (src/texture.rs): the logical (non-padded)
region, `&data[..size.0 * size.1]`. -/
def CpuTexture.dataLogical (t : CpuTexture α) : List α :=
  t.data.take (t.size.1 * t.size.2)

/-! ## Range2d (src/texture.rs) -/

/-- Embeds the private `Range2d` struct of src/texture.rs. -/
structure Range2d where
  size : Nat × Nat
  cur : Nat × Nat
  deriving DecidableEq, Repr

/-- Embeds `Range2d::new`. -/
def Range2d.new (size : Nat × Nat) : Range2d := ⟨size, (0, 0)⟩

/-- Embeds `Iterator::next` for `Range2d` (src/texture.rs lines 304-316):
returns `none` when `cur.1 >= size.1`, otherwise yields `cur` and
advances `cur.0`, wrapping to the next row when `cur.0 >= size.0`. -/
def Range2d.next (r : Range2d) : Option ((Nat × Nat) × Range2d) :=
  if r.size.2 ≤ r.cur.2 then
    none
  else
    let result := r.cur
    let c0 := r.cur.1 + 1
    if r.size.1 ≤ c0 then
      some (result, ⟨r.size, (0, r.cur.2 + 1)⟩)
    else
      some (result, ⟨r.size, (c0, r.cur.2)⟩)

/-- Embeds `Iterator::size_hint` for `Range2d` (src/texture.rs lines
318-321): claims exactly `size.0 * size.1` remaining items. -/
def Range2d.sizeHint (r : Range2d) : Nat × Option Nat :=
  (r.size.1 * r.size.2, some (r.size.1 * r.size.2))

/-- Drains the iterator with explicit fuel, collecting the yielded
items in order. -/
def Range2d.drain : Nat → Range2d → List (Nat × Nat)
  | 0, _ => []
  | fuel + 1, r =>
    match r.next with
    | none => []
    | some (item, r') => item :: Range2d.drain fuel r'

/-- The full item sequence of `CpuTexture::iter_index` for a given size:
`Range2d::new(size)` drained with fuel that exceeds every possible yield
count. -/
def iterIndexList (size : Nat × Nat) : List (Nat × Nat) :=
  Range2d.drain (size.1 * size.2 + size.2 + 1) (Range2d.new size)

/-- The row-major coordinate grid the specification describes:
`(x, y)` for `y < height` (outer) and `x < width` (inner). -/
def rowMajorGrid (size : Nat × Nat) : List (Nat × Nat) :=
  (List.range size.2).flatMap (fun y => (List.range size.1).map (fun x => (x, y)))

/-! ## GPU texture objects and upload (src/texture.rs) -/

/-- Embeds the GPU-side fields of `Texture<T>` (src/texture.rs): the
native handle and the size.  The pixel type parameter is carried by the
payload type `α` of the stores below. -/
structure Texture (α : Type) where
  id : Nat
  size : Nat × Nat

/-- The GPU texture storage visible to this model: the contents (a flat
texel list) per native texture handle. -/
def TexStore (α : Type) := List (Nat × List α)

/-- Overwrites (or creates) the stored contents of one handle. -/
def TexStore.write (s : TexStore α) (id : Nat) (contents : List α) :
    TexStore α :=
  (id, contents) :: (s.filter (fun e => e.1 ≠ id))

/-- Reads the stored contents of one handle. -/
def TexStore.read (s : TexStore α) (id : Nat) : Option (List α) :=
  (s.find? (fun e => e.1 = id)).map (fun e => e.2)

/-- Embeds `Texture::upload` (src/texture.rs lines 100-125).  The source
begins with `assert_eq!(self.size, cpu_texture.size)` — a panic, not an
error return — and then issues `TextureSubImage2D` over the texture's
full extent reading from `cpu_texture.data()`, i.e. exactly the first
`width*height` elements of the buffer.  The interleaved
`get_internal_format_info` lookups only translate the pixel type to GL
transfer enums and cannot alter the copied data, so they are not
represented. -/
def Texture.upload (tex : Texture α) (cpu : CpuTexture α)
    (store : TexStore α) : Outcome (TexStore α) :=
  if tex.size ≠ cpu.size then
    Outcome.panic "assertion failed: self.size == cpu_texture.size"
  else
    Outcome.ok (store.write tex.id cpu.dataLogical)

/-! ## Shader and program compilation (src/lib.rs) -/

/-- The GL shader stages used by src/lib.rs. -/
inductive ShaderKind where
  | vertex
  | fragment
  | compute
  deriving DecidableEq, Repr

/-- One GL command relevant to the compilation claims, as recorded in the
driver-call trace. -/
inductive GlEvent where
  | createShader (kind : ShaderKind) (handle : Nat)
  | shaderSource (handle : Nat) (sources : List String)
  | compileShader (handle : Nat)
  | createProgram (handle : Nat)
  | attachShader (program shader : Nat)
  | linkProgram (handle : Nat)
  | deleteShader (handle : Nat)
  deriving DecidableEq, Repr

/-- The modelled GL driver state: a fresh-handle counter (handles start
at 1; 0 is never a live object, as in GL), the live shader and program
object handles, and the trace of issued commands. -/
structure GlState where
  nextHandle : Nat
  shaders : List Nat
  programs : List Nat
  trace : List GlEvent
  deriving DecidableEq, Repr

/-- The initial driver state. -/
def GlState.init : GlState := ⟨1, [], [], []⟩

/-- The driver's compile/link behaviour, which is outside the program:
success flag and info log for compiling given sources at a given stage,
and for linking a given list of attached shader handles. -/
structure GlOracle where
  compileOk : List String → ShaderKind → Bool
  compileLog : List String → ShaderKind → String
  linkOk : List Nat → Bool
  linkLog : List Nat → String

/-- Embeds `CompileResult` (src/lib.rs lines 143-147). -/
structure CompileResult where
  shader : Nat
  success : Bool
  log : String
  deriving DecidableEq, Repr

/-- Embeds `create_shader` (src/lib.rs lines 230-276): creates a shader
object, sets its sources, compiles, queries status and log, and returns
`CompileResult { shader, success, log }` — note the freshly created
handle is returned unchanged whether or not compilation succeeded. -/
def create_shader (o : GlOracle) (st : GlState) (sources : List String)
    (kind : ShaderKind) : GlState × CompileResult :=
  let h := st.nextHandle
  let st' : GlState :=
    { nextHandle := h + 1
      shaders := st.shaders ++ [h]
      programs := st.programs
      trace := st.trace ++
        [GlEvent.createShader kind h, GlEvent.shaderSource h sources,
         GlEvent.compileShader h] }
  (st', ⟨h, o.compileOk sources kind, o.compileLog sources kind⟩)

/-- Embeds `create_program` (src/lib.rs lines 188-228): creates a program
object, attaches every given shader, links, queries status and log, and
then — unconditionally, before returning and regardless of the link
status — calls `DeleteShader` on every given shader.  Returns
`CompileResult { shader: program, success, log }` with the program handle
even when linking failed. -/
def create_program (o : GlOracle) (st : GlState) (shaders : List Nat) :
    GlState × CompileResult :=
  let p := st.nextHandle
  let st' : GlState :=
    { nextHandle := p + 1
      shaders := st.shaders.filter (fun s => s ∉ shaders)
      programs := st.programs ++ [p]
      trace := st.trace ++
        ([GlEvent.createProgram p] ++
         shaders.map (fun s => GlEvent.attachShader p s) ++
         [GlEvent.linkProgram p] ++
         shaders.map (fun s => GlEvent.deleteShader s)) }
  (st', ⟨p, o.linkOk shaders, o.linkLog shaders⟩)

/-- Embeds `create_vert_frag_program` (src/lib.rs lines 161-186):
compiles the vertex stage and returns `{ shader: 0, success, log }` on
its failure; otherwise compiles the fragment stage and returns likewise
on its failure; otherwise links both and, only when the link succeeded,
replaces the result log by the concatenation
`vertex.log ++ fragment.log ++ link.log`. -/
def create_vert_frag_program (o : GlOracle) (st : GlState)
    (vertex fragment : List String) : GlState × CompileResult :=
  let (st1, v) := create_shader o st vertex ShaderKind.vertex
  if ¬ v.success then
    (st1, ⟨0, v.success, v.log⟩)
  else
    let (st2, f) := create_shader o st1 fragment ShaderKind.fragment
    if ¬ f.success then
      (st2, ⟨0, f.success, f.log⟩)
    else
      let (st3, r) := create_program o st2 [v.shader, f.shader]
      if r.success then
        (st3, ⟨r.shader, r.success, v.log ++ f.log ++ r.log⟩)
      else
        (st3, r)

/-- Embeds `create_compute_program` (src/lib.rs lines 149-159). -/
def create_compute_program (o : GlOracle) (st : GlState)
    (sources : List String) : GlState × CompileResult :=
  let (st1, s) := create_shader o st sources ShaderKind.compute
  if ¬ s.success then
    (st1, ⟨0, s.success, s.log⟩)
  else
    create_program o st1 [s.shader]

/-! ## Quad render builder (src/render_texture.rs)

The builder's terminal `go` computes four uniform vectors and issues one
draw.  All the arithmetic `go` performs is division of `f32` values; it
is modelled over `ℚ`.  (At the claims' inputs — rect components that are
small whole numbers divided by texture/screen extents equal to
themselves or exactly representable — the `f32` evaluation is exact, and
the equality claims compare two runs of the very same expressions, so
the rational model is faithful.) -/

/-- Embeds `Rect<f32>` (src/lib.rs lines 48-54) as used by the render
builder. -/
structure RectQ where
  x : ℚ
  y : ℚ
  width : ℚ
  height : ℚ
  deriving DecidableEq, Repr

/-- The parameters of the single `DrawArrays(TRIANGLE_STRIP, 0, 4)` call
issued by `RenderBuilder::go`: the four uniforms it sets and the texture
it binds to unit 0. -/
structure DrawCall where
  srcPosSize : RectQ
  dstPosSize : RectQ
  tint : ℚ × ℚ × ℚ × ℚ
  scaleOffset : ℚ × ℚ
  textureId : Nat
  deriving DecidableEq, Repr

/-- Embeds `RenderBuilder` (src/render_texture.rs lines 142-151): the
borrowed texture (its id and size), the screen size, and the four
optional parameters. -/
structure RenderBuilder where
  textureId : Nat
  textureSize : Nat × Nat
  screenSize : ℚ × ℚ
  src : Option RectQ
  dst : Option RectQ
  tint : Option (ℚ × ℚ × ℚ × ℚ)
  scale_offset : Option (ℚ × ℚ)
  deriving DecidableEq, Repr

/-- Embeds `TextureRenderer::render` (src/render_texture.rs lines 73-79),
which constructs the builder with every optional field unset. -/
def TextureRenderer.render (textureId : Nat) (textureSize : Nat × Nat)
    (screenSize : ℚ × ℚ) : RenderBuilder :=
  ⟨textureId, textureSize, screenSize, none, none, none, none⟩

/-- Embeds `RenderBuilder::go` (src/render_texture.rs lines 190-243):
defaults `src` to the full texture extent and `dst` to the full screen,
`tint` to opaque white and `scale_offset` to `(1, 0)`; sets
`src_pos_size` to `src` divided componentwise by the texture size and
`dst_pos_size` to `dst` divided componentwise by the screen size; binds
the texture and issues one 4-vertex triangle-strip draw. -/
def RenderBuilder.go (b : RenderBuilder) : DrawCall :=
  let src := b.src.getD ⟨0, 0, (b.textureSize.1 : ℚ), (b.textureSize.2 : ℚ)⟩
  let dst := b.dst.getD ⟨0, 0, b.screenSize.1, b.screenSize.2⟩
  let tint := b.tint.getD (1, 1, 1, 1)
  let scale_offset := b.scale_offset.getD (1, 0)
  { srcPosSize :=
      ⟨src.x / (b.textureSize.1 : ℚ), src.y / (b.textureSize.2 : ℚ),
       src.width / (b.textureSize.1 : ℚ), src.height / (b.textureSize.2 : ℚ)⟩
    dstPosSize :=
      ⟨dst.x / b.screenSize.1, dst.y / b.screenSize.2,
       dst.width / b.screenSize.1, dst.height / b.screenSize.2⟩
    tint := tint
    scaleOffset := scale_offset
    textureId := b.textureId }

/-- Embeds the chainable `.src(rect)` setter of `RenderBuilder`
(src/render_texture.rs lines 170-173). -/
def RenderBuilder.withSrc (b : RenderBuilder) (r : RectQ) : RenderBuilder :=
  { b with src := some r }

/-- Embeds the chainable `.dst(rect)` setter of `RenderBuilder`
(src/render_texture.rs lines 175-178). -/
def RenderBuilder.withDst (b : RenderBuilder) (r : RectQ) : RenderBuilder :=
  { b with dst := some r }

/-! ## Text rendering (src/render_text.rs)

The font (rusttype) is an external collaborator; it is modelled as a map
from characters to the data `render_char` extracts from a positioned
glyph: whether `pixel_bounding_box()` is `Some`, the box's width, height
and top edge, and the (already-`ceil`ed, as the source casts them to
`isize`) horizontal metrics.  The glyph's pixel coverage only determines
texture contents, which no claim inspects, so it is not carried. -/

/-- The per-character data the font collaborator supplies to
`render_char`. -/
structure GlyphInfo where
  hasBoundingBox : Bool
  bbWidth : Nat
  bbHeight : Nat
  bbMinY : Int
  leftSideBearing : Int
  advanceWidth : Int
  deriving DecidableEq, Repr

/-- The font model: `Font::layout` of a one-character string always
yields exactly one positioned glyph, described by `glyph`. -/
structure FontModel where
  glyph : Char → GlyphInfo

/-- Embeds `AtlasEntry` (src/render_text.rs lines 14-19); the glyph
texture is represented by its size. -/
structure AtlasEntry where
  textureSize : Nat × Nat
  x_pos : Int
  y_pos : Int
  stride : Int
  deriving DecidableEq, Repr

/-- Embeds `render_char` (src/render_text.rs lines 118-142): panics when
`pixel_bounding_box()` is `None` (`expect("Could not get bounding box of
glyph")`); otherwise rasterizes into a buffer of the box's size, uploads
it, and records `x_pos = left_side_bearing.ceil()`, `y_pos = bb.min.y`,
`stride = advance_width.ceil()`. -/
def render_char (g : GlyphInfo) : Outcome AtlasEntry :=
  if g.hasBoundingBox then
    Outcome.ok ⟨(g.bbWidth, g.bbHeight), g.leftSideBearing, g.bbMinY,
      g.advanceWidth⟩
  else
    Outcome.panic "Could not get bounding box of glyph"

/-- The glyph atlas: the cache field of `TextRenderer`, as an association
list from character to entry. -/
abbrev Atlas := List (Char × AtlasEntry)

/-- Embeds `TextRenderer::get_entry` (src/render_text.rs lines 57-68):
returns the cached entry, or rasterizes the character via `render_char`
(which may panic) and inserts it. -/
def getEntry (font : FontModel) (atlas : Atlas) (ch : Char) :
    Outcome (AtlasEntry × Atlas) :=
  match atlas.find? (fun e => e.1 = ch) with
  | some e => Outcome.ok (e.2, atlas)
  | none =>
    match render_char (font.glyph ch) with
    | Outcome.ok entry => Outcome.ok (entry, atlas ++ [(ch, entry)])
    | Outcome.err e => Outcome.err e
    | Outcome.panic m => Outcome.panic m

/-- One glyph draw issued by `TextRenderer::render`: the character whose
cached texture is bound, the cursor `(x, y)` at the moment of the draw,
and the destination rect `(x + x_pos, y + y_pos, texture width, texture
height)` passed to the quad renderer. -/
structure GlyphDraw where
  ch : Char
  cursor : Int × Int
  dst : Int × Int × Nat × Nat
  deriving DecidableEq, Repr

/-- The loop state of `TextRenderer::render`: the cursor, the running
maxima, the atlas, and the draws issued so far. -/
structure RenderState where
  x : Int
  y : Int
  maxX : Int
  maxY : Int
  atlas : Atlas
  draws : List GlyphDraw
  deriving DecidableEq, Repr

/-- One iteration of the character loop in `TextRenderer::render`
(src/render_text.rs lines 82-107): `\n` resets `x` to the starting
column and advances `y` by `spacing`; a space advances `x` by the `'*'`
entry's stride with no draw; any other character fetches (possibly
rasterizing) its entry, draws it at
`(x + x_pos, y + y_pos, tex.width, tex.height)`, advances `x` by its
stride and updates the maxima (the source uses the texture's *width*,
`size.0`, in the `max_y` update). -/
def renderStep (font : FontModel) (spacing : Nat) (startX : Int)
    (st : RenderState) (ch : Char) : Outcome RenderState :=
  if ch = '\n' then
    Outcome.ok { st with y := st.y + (spacing : Int), x := startX }
  else if ch = ' ' then
    match getEntry font st.atlas '*' with
    | Outcome.ok (e, atlas') =>
      Outcome.ok { st with x := st.x + e.stride, atlas := atlas' }
    | Outcome.err e => Outcome.err e
    | Outcome.panic m => Outcome.panic m
  else
    match getEntry font st.atlas ch with
    | Outcome.ok (e, atlas') =>
      let draw : GlyphDraw :=
        ⟨ch, (st.x, st.y),
         (st.x + e.x_pos, st.y + e.y_pos, e.textureSize.1, e.textureSize.2)⟩
      let x' := st.x + e.stride
      Outcome.ok
        { x := x'
          y := st.y
          maxX := max st.maxX x'
          maxY := max st.maxY (st.y + e.y_pos + (e.textureSize.1 : Int))
          atlas := atlas'
          draws := st.draws ++ [draw] }
    | Outcome.err e => Outcome.err e
    | Outcome.panic m => Outcome.panic m

/-- The character loop of `TextRenderer::render`, folded over the
string's characters. -/
def renderChars (font : FontModel) (spacing : Nat) (startX : Int) :
    RenderState → List Char → Outcome RenderState
  | st, [] => Outcome.ok st
  | st, ch :: rest =>
    match renderStep font spacing startX st ch with
    | Outcome.ok st' => renderChars font spacing startX st' rest
    | Outcome.err e => Outcome.err e
    | Outcome.panic m => Outcome.panic m

/-- Embeds `TextRenderer::render` (src/render_text.rs lines 70-115) up to
the final bounding-rect computation: runs the character loop from the
initial state (`x = y = max` cursors at `position`, the renderer's
current atlas, no draws yet). -/
def TextRenderer.render (font : FontModel) (spacing : Nat) (atlas : Atlas)
    (text : List Char) (position : Nat × Nat) : Outcome RenderState :=
  renderChars font spacing (position.1 : Int)
    { x := (position.1 : Int)
      y := (position.2 : Int)
      maxX := (position.1 : Int)
      maxY := (position.2 : Int)
      atlas := atlas
      draws := [] } text

/-! ## Concrete example values used by witnesses and counterexamples -/

/-- A 3×2 example buffer with row-major data `[10,20,30,40,50,60]`. -/
def exTex : CpuTexture Nat :=
  ⟨[10, 20, 30, 40, 50, 60], (3, 2), by decide⟩

/-- A 1×1 GPU texture with handle 1. -/
def texA : Texture Nat := ⟨1, (1, 1)⟩

/-- A 2×1 buffer, mismatching `texA`. -/
def cpuB : CpuTexture Nat := ⟨[5, 6], (2, 1), by decide⟩

/-- A 2×1 GPU texture with handle 2. -/
def texC : Texture Nat := ⟨2, (2, 1)⟩

/-- A 2×1 buffer with one element of trailing padding. -/
def cpuC : CpuTexture Nat := ⟨[7, 8, 9], (2, 1), by decide⟩

/-- A driver on which every compile succeeds but every link fails. -/
def oracleLinkFail : GlOracle :=
  ⟨fun _ _ => true, fun _ _ => "", fun _ => false, fun _ => "link failed"⟩

/-- A driver on which every compile fails. -/
def oracleCompileFail : GlOracle :=
  ⟨fun _ _ => false, fun _ _ => "compile error", fun _ => false,
   fun _ => "link error"⟩

/-- A driver on which everything succeeds, with stage-tagged logs. -/
def oracleAllOk : GlOracle :=
  ⟨fun _ _ => true,
   fun _ k =>
     match k with
     | ShaderKind.vertex => "V"
     | ShaderKind.fragment => "F"
     | ShaderKind.compute => "C",
   fun _ => true, fun _ => "L"⟩

/-- A driver on which exactly the source list `["bad"]` fails to
compile and links succeed. -/
def oracleFragFail : GlOracle :=
  ⟨fun s _ => if s = ["bad"] then false else true, fun _ _ => "frag error",
   fun _ => true, fun _ => "L"⟩

/-- The driver state after compiling one vertex and one fragment shader
(live shader handles 1 and 2). -/
def stTwoShaders : GlState :=
  (create_shader oracleLinkFail
    (create_shader oracleLinkFail GlState.init ["v"] ShaderKind.vertex).1
    ["f"] ShaderKind.fragment).1

/-- A font on which no character has a pixel bounding box (as happens
for whitespace codepoints). -/
def fontNoBB : FontModel := ⟨fun _ => ⟨false, 0, 0, 0, 0, 0⟩⟩

/-- A font on which every character has a 2×3 bounding box with top edge
-4, left-side bearing 1 and advance width 5. -/
def fontAllBB : FontModel := ⟨fun _ => ⟨true, 2, 3, -4, 1, 5⟩⟩

/-- The atlas entry `render_char` extracts from `fontAllBB`'s glyphs. -/
def entryBB : AtlasEntry := ⟨(2, 3), 1, -4, 5⟩

/-- An empty text-renderer loop state at cursor (0, 0). -/
def rs0 : RenderState := ⟨0, 0, 0, 0, [], []⟩

/-- The GL commands a computation starting from `st` and ending at `st\'`
appended to the trace. -/
def newTrace (st st' : GlState) : List GlEvent :=
  st'.trace.drop st.trace.length

/-! ## Theorems -/

/-- C6: for every `CpuImageBuffer` (`CpuTexture`) of dimensions
width×height and every pair `(x, y)`, indexing `buffer[(x,y)]` equals
`data[y*width+x]` (and succeeds) whenever `x < width` and `y < height`,
and panics (returns `none` in the embedding) for every `x ≥ width` or
`y ≥ height`. -/
theorem cpuTexture_index_spec (α : Type) (t : CpuTexture α) (x y : Nat) :
    (x < t.size.1 → y < t.size.2 →
      t.index (x, y) = t.data.get? (y * t.size.1 + x) ∧
        (t.index (x, y)).isSome = true) ∧
    (t.size.1 ≤ x ∨ t.size.2 ≤ y → t.index (x, y) = none) := by
  constructor
  · intro hx hy
    have hcond : ¬ (t.size.1 ≤ x ∨ t.size.2 ≤ y) := by omega
    have hidx : t.size.1 * y + x < t.data.length := by
      have h1 : t.size.1 * y + x < t.size.1 * t.size.2 :=
        calc t.size.1 * y + x < t.size.1 * y + t.size.1 := by omega
          _ = t.size.1 * (y + 1) := by ring
          _ ≤ t.size.1 * t.size.2 := Nat.mul_le_mul_left _ hy
      exact lt_of_lt_of_le h1 t.hlen
    constructor
    · simp only [CpuTexture.index, hcond, if_false]
      rw [Nat.mul_comm]
    · simp only [CpuTexture.index, hcond, if_false]
      rw [List.get?_eq_get hidx]
      rfl
  · intro h
    simp only [CpuTexture.index, h, if_true]

/-- Witness for C6 on the concrete 3×2 buffer `exTex`. -/
theorem cpuTexture_index_spec_witness :
    CpuTexture.index exTex (1, 1) = some 50 ∧
      CpuTexture.index exTex (3, 0) = none := by
  constructor
  · have h := ((cpuTexture_index_spec Nat exTex 1 1).1 (by decide) (by decide)).1
    rw [h]; rfl
  · exact (cpuTexture_index_spec Nat exTex 3 0).2 (Or.inl (by decide))

/-- C7: for every buffer with width ≥ 1 and height ≥ 1 and all integers
x and y, `get_wrapped(x, y) = get_wrapped(x + width, y + height)`. -/
theorem get_wrapped_periodic (α : Type) (t : CpuTexture α) (x y : Int)
    (hw : 1 ≤ t.size.1) (hh : 1 ≤ t.size.2) :
    t.get_wrapped x y =
      t.get_wrapped (x + (t.size.1 : Int)) (y + (t.size.2 : Int)) := by
  unfold CpuTexture.get_wrapped
  have hx : (x + (t.size.1 : Int)).emod (t.size.1 : Int) =
      x.emod (t.size.1 : Int) := by
    show (x + (t.size.1 : Int)) % (t.size.1 : Int) = x % (t.size.1 : Int)
    have h := Int.add_mul_emod_self_left (a := x) (b := (t.size.1 : Int)) (c := 1)
    rwa [mul_one] at h
  have hy : (y + (t.size.2 : Int)).emod (t.size.2 : Int) =
      y.emod (t.size.2 : Int) := by
    show (y + (t.size.2 : Int)) % (t.size.2 : Int) = y % (t.size.2 : Int)
    have h := Int.add_mul_emod_self_left (a := y) (b := (t.size.2 : Int)) (c := 1)
    rwa [mul_one] at h
  rw [hx, hy]

/-- Witness for C7 on the concrete 3×2 buffer `exTex` at (-1, -1). -/
theorem get_wrapped_periodic_witness :
    CpuTexture.get_wrapped exTex (-1) (-1) =
      CpuTexture.get_wrapped exTex (-1 + (exTex.size.1 : Int))
        (-1 + (exTex.size.2 : Int)) :=
  get_wrapped_periodic Nat exTex (-1) (-1) (by decide) (by decide)

/-- C10 (code bug): at size (0, 2) the `Range2d` iterator behind
`CpuTexture::iter_index` yields `[(0,0), (0,1)]` — two items although the
coordinate grid {(x,y) | x < 0, y < 2} is empty — contradicting the
iterator's own `size_hint`, which promises exactly 0 items there. -/
theorem range2d_width_zero_bug :
    iterIndexList (0, 2) = [(0, 0), (0, 1)] ∧
      rowMajorGrid (0, 2) = [] ∧
      Range2d.sizeHint (Range2d.new (0, 2)) = (0, some 0) := by decide

/-- C1 (counterexample): uploading a 2×1 buffer to a 1×1 texture panics
(the source's `assert_eq!`) — it does not return a recoverable error
value, `SizeMismatch` or otherwise. -/
theorem upload_mismatch_panics_counterexample :
    Texture.upload texA cpuB ([] : TexStore Nat) =
      Outcome.panic "assertion failed: self.size == cpu_texture.size" ∧
      (∃ m, Texture.upload texA cpuB ([] : TexStore Nat) = Outcome.panic m) ∧
      ¬ ∃ e, Texture.upload texA cpuB ([] : TexStore Nat) = Outcome.err e := by
  refine ⟨rfl, ⟨_, rfl⟩, ?_⟩
  rintro ⟨e, h⟩
  rw [show Texture.upload texA cpuB ([] : TexStore Nat) =
    Outcome.panic "assertion failed: self.size == cpu_texture.size" from rfl] at h
  exact Outcome.noConfusion h

/-- C1 (amended): `Texture::upload` panics via `assert_eq!` when the
buffer dimensions differ from the texture's (it does not return an
error value), and when they are equal it succeeds and stores exactly the
first width*height elements of the buffer for the texture's handle. -/
theorem upload_size_check (α : Type) (tex : Texture α) (cpu : CpuTexture α)
    (store : TexStore α) :
    (tex.size ≠ cpu.size →
      Texture.upload tex cpu store =
        Outcome.panic "assertion failed: self.size == cpu_texture.size") ∧
    (tex.size = cpu.size →
      ∃ store', Texture.upload tex cpu store = Outcome.ok store' ∧
        store'.read tex.id = some (cpu.data.take (cpu.size.1 * cpu.size.2)) ∧
        (cpu.data.take (cpu.size.1 * cpu.size.2)).length =
          cpu.size.1 * cpu.size.2) := by
  constructor
  · intro hne
    simp only [Texture.upload, hne, if_true, ne_eq, not_false_iff]
  · intro heq
    refine ⟨store.write tex.id cpu.dataLogical, ?_, ?_, ?_⟩
    · unfold Texture.upload
      rw [if_neg (fun h : tex.size ≠ cpu.size => h heq)]
    · simp [TexStore.read, TexStore.write, CpuTexture.dataLogical]
    · rw [List.length_take]
      exact Nat.min_eq_left cpu.hlen

/-- Witness for C1 (amended), exercising both branches: the matching 2×1
upload of the padded buffer `cpuC` and the mismatched upload of `cpuB`
to the 1×1 texture `texA`. -/
theorem upload_size_check_witness :
    (∃ store', Texture.upload texC cpuC ([] : TexStore Nat) =
        Outcome.ok store' ∧
      store'.read texC.id = some (cpuC.data.take (cpuC.size.1 * cpuC.size.2)) ∧
      (cpuC.data.take (cpuC.size.1 * cpuC.size.2)).length =
        cpuC.size.1 * cpuC.size.2) ∧
    Texture.upload texA cpuB ([] : TexStore Nat) =
      Outcome.panic "assertion failed: self.size == cpu_texture.size" :=
  ⟨(upload_size_check Nat texC cpuC []).2 rfl,
   (upload_size_check Nat texA cpuB []).1 (by decide)⟩

/-- C2 (counterexample): with two live compiled shaders (handles 1 and
2) and a driver on which linking fails, `create_program` still deletes
both shader objects — the result reports `success = false`, yet the live
shader set is empty and `DeleteShader` was issued for both handles, so
the caller cannot inspect or retry with them. -/
theorem create_program_deletes_on_failure_counterexample :
    (create_program oracleLinkFail stTwoShaders [1, 2]).2.success = false ∧
      stTwoShaders.shaders = [1, 2] ∧
      (create_program oracleLinkFail stTwoShaders [1, 2]).1.shaders = [] ∧
      GlEvent.deleteShader 1 ∈
        (create_program oracleLinkFail stTwoShaders [1, 2]).1.trace ∧
      GlEvent.deleteShader 2 ∈
        (create_program oracleLinkFail stTwoShaders [1, 2]).1.trace := by
  decide

/-- C2 (amended): `create_program` releases the per-stage shader objects
unconditionally — for every driver behaviour, every prior state and
every shader list, after the call the live shader set has the given
shaders removed and a `DeleteShader` command was issued for each of
them, regardless of whether the link succeeded. -/
theorem create_program_always_deletes_shaders (o : GlOracle) (st : GlState)
    (hs : List Nat) :
    (create_program o st hs).1.shaders =
        st.shaders.filter (fun s => s ∉ hs) ∧
      ∀ s ∈ hs, GlEvent.deleteShader s ∈ (create_program o st hs).1.trace := by
  constructor
  · rfl
  · intro s hmem
    show GlEvent.deleteShader s ∈ st.trace ++ _
    exact List.mem_append_right _ (List.mem_append_right _
      (List.mem_map.mpr ⟨s, hmem, rfl⟩))

/-- Witness for C2 (amended) at a succeeding link, showing the deletion
also happens on success. -/
theorem create_program_always_deletes_shaders_witness :
    (create_program oracleAllOk stTwoShaders [1, 2]).1.shaders =
        stTwoShaders.shaders.filter (fun s => s ∉ [1, 2]) ∧
      GlEvent.deleteShader 1 ∈
        (create_program oracleAllOk stTwoShaders [1, 2]).1.trace :=
  ⟨(create_program_always_deletes_shaders oracleAllOk stTwoShaders [1, 2]).1,
   (create_program_always_deletes_shaders oracleAllOk stTwoShaders [1, 2]).2
     1 (by decide)⟩

/-- C3 (counterexample): on a driver whose compile fails, `create_shader`
returns `success = false` with the freshly created native handle (1), not
0 — and `create_program`'s link-failure result likewise carries the
program handle. -/
theorem compile_result_handle_counterexample :
    (create_shader oracleCompileFail GlState.init ["bad"]
        ShaderKind.fragment).2.success = false ∧
      (create_shader oracleCompileFail GlState.init ["bad"]
        ShaderKind.fragment).2.shader = 1 ∧
      (create_program oracleLinkFail stTwoShaders [1, 2]).2.shader = 3 ∧
      (create_program oracleLinkFail stTwoShaders [1, 2]).2.success = false := by
  decide

/-- C3 (amended): only the compile-stage failure results assembled by
`create_vert_frag_program` carry handle 0; `create_shader` always returns
the freshly created shader handle (`st.nextHandle`, never 0 since handles
start at 1) and `create_program` always returns the program handle, in
both cases whether or not the operation succeeded. -/
theorem compile_result_handle_zero (o : GlOracle) (st : GlState)
    (v f : List String) (hs : List Nat) :
    (o.compileOk v ShaderKind.vertex = false →
      (create_vert_frag_program o st v f).2.shader = 0) ∧
    (o.compileOk v ShaderKind.vertex = true →
      o.compileOk f ShaderKind.fragment = false →
      (create_vert_frag_program o st v f).2.shader = 0) ∧
    (create_shader o st v ShaderKind.vertex).2.shader = st.nextHandle ∧
    (create_program o st hs).2.shader = st.nextHandle ∧
    1 ≤ GlState.init.nextHandle := by
  refine ⟨?_, ?_, rfl, rfl, by decide⟩
  · intro hv
    simp only [create_vert_frag_program, create_shader, hv,
      Bool.false_eq_true, not_false_iff, if_true]
  · intro hv hf
    simp only [create_vert_frag_program, create_shader, hv, hf,
      Bool.false_eq_true, not_true, if_false, not_false_iff, if_true]

/-- Witness for C3 (amended): the vertex-failure branch on the
all-failing driver, the fragment-failure branch on the driver failing
exactly on `["bad"]`, and the handle identities at the initial state. -/
theorem compile_result_handle_zero_witness :
    (create_vert_frag_program oracleCompileFail GlState.init
        ["v"] ["f"]).2.shader = 0 ∧
      (create_vert_frag_program oracleFragFail GlState.init
        ["v"] ["bad"]).2.shader = 0 ∧
      (create_shader oracleAllOk GlState.init ["v"]
        ShaderKind.vertex).2.shader = GlState.init.nextHandle :=
  ⟨(compile_result_handle_zero oracleCompileFail GlState.init
      ["v"] ["f"] []).1 (by decide),
   ((compile_result_handle_zero oracleFragFail GlState.init
      ["v"] ["bad"] []).2).1 (by decide) (by decide),
   ((compile_result_handle_zero oracleAllOk GlState.init
      ["v"] ["f"] []).2).2.1⟩

/-- C4: `create_vert_frag_program` short-circuits.  If the vertex stage
fails to compile, it returns that stage's diagnostic with
`success = false` and handle 0, having issued only the vertex-stage
commands — no fragment shader is created and no link happens.  If the
fragment stage fails, it returns that diagnostic likewise without
linking.  On overall success the returned log is the concatenation of
the vertex, fragment and link diagnostics in that order. -/
theorem vert_frag_short_circuit (o : GlOracle) (st : GlState)
    (v f : List String) :
    (o.compileOk v ShaderKind.vertex = false →
      (create_vert_frag_program o st v f).2 =
        ⟨0, false, o.compileLog v ShaderKind.vertex⟩ ∧
      newTrace st (create_vert_frag_program o st v f).1 =
        [GlEvent.createShader ShaderKind.vertex st.nextHandle,
         GlEvent.shaderSource st.nextHandle v,
         GlEvent.compileShader st.nextHandle] ∧
      (∀ h, GlEvent.createShader ShaderKind.fragment h ∉
        newTrace st (create_vert_frag_program o st v f).1) ∧
      (∀ p, GlEvent.linkProgram p ∉
        newTrace st (create_vert_frag_program o st v f).1)) ∧
    (o.compileOk v ShaderKind.vertex = true →
      o.compileOk f ShaderKind.fragment = false →
      (create_vert_frag_program o st v f).2 =
        ⟨0, false, o.compileLog f ShaderKind.fragment⟩ ∧
      newTrace st (create_vert_frag_program o st v f).1 =
        [GlEvent.createShader ShaderKind.vertex st.nextHandle,
         GlEvent.shaderSource st.nextHandle v,
         GlEvent.compileShader st.nextHandle,
         GlEvent.createShader ShaderKind.fragment (st.nextHandle + 1),
         GlEvent.shaderSource (st.nextHandle + 1) f,
         GlEvent.compileShader (st.nextHandle + 1)] ∧
      (∀ p, GlEvent.linkProgram p ∉
        newTrace st (create_vert_frag_program o st v f).1)) ∧
    (o.compileOk v ShaderKind.vertex = true →
      o.compileOk f ShaderKind.fragment = true →
      o.linkOk [st.nextHandle, st.nextHandle + 1] = true →
      (create_vert_frag_program o st v f).2.success = true ∧
      (create_vert_frag_program o st v f).2.log =
        o.compileLog v ShaderKind.vertex ++
          o.compileLog f ShaderKind.fragment ++
          o.linkLog [st.nextHandle, st.nextHandle + 1]) := by
  refine ⟨?_, ?_, ?_⟩
  · intro hv
    have hres : create_vert_frag_program o st v f =
        ((create_shader o st v ShaderKind.vertex).1,
         ⟨0, false, o.compileLog v ShaderKind.vertex⟩) := by
      simp only [create_vert_frag_program, create_shader, hv,
        Bool.false_eq_true, not_false_iff, if_true]
    rw [hres]
    refine ⟨rfl, ?_, ?_, ?_⟩
    · show (st.trace ++ _).drop st.trace.length = _
      rw [List.drop_left]
    · intro h
      show GlEvent.createShader ShaderKind.fragment h ∉
        (st.trace ++ _).drop st.trace.length
      rw [List.drop_left]
      simp
    · intro p
      show GlEvent.linkProgram p ∉ (st.trace ++ _).drop st.trace.length
      rw [List.drop_left]
      simp
  · intro hv hf
    have hres : create_vert_frag_program o st v f =
        ((create_shader o (create_shader o st v ShaderKind.vertex).1 f
            ShaderKind.fragment).1,
         ⟨0, false, o.compileLog f ShaderKind.fragment⟩) := by
      simp only [create_vert_frag_program, create_shader, hv, hf,
        Bool.false_eq_true, not_true, if_false, not_false_iff, if_true]
    rw [hres]
    refine ⟨rfl, ?_, ?_⟩
    · show ((st.trace ++ _) ++ _).drop st.trace.length = _
      rw [List.append_assoc, List.drop_left]
      rfl
    · intro p
      show GlEvent.linkProgram p ∉
        ((st.trace ++ _) ++ _).drop st.trace.length
      rw [List.append_assoc, List.drop_left]
      simp
  · intro hv hf hl
    simp only [create_vert_frag_program, create_shader, create_program,
      hv, hf, hl, not_true, if_false, Bool.true_eq_false, not_false_iff,
      if_true]
    exact ⟨trivial, trivial⟩

/-- Witness for C4: the three branches at concrete drivers — vertex
failure on the all-failing driver, fragment failure on the driver that
rejects exactly `["bad"]`, and full success on the all-succeeding driver
with stage-tagged logs, whose result log is `"V" ++ "F" ++ "L"`. -/
theorem vert_frag_short_circuit_witness :
    (create_vert_frag_program oracleCompileFail GlState.init
        ["v"] ["f"]).2 = ⟨0, false, "compile error"⟩ ∧
      (∀ p, GlEvent.linkProgram p ∉
        newTrace GlState.init
          (create_vert_frag_program oracleFragFail GlState.init
            ["v"] ["bad"]).1) ∧
      (create_vert_frag_program oracleAllOk GlState.init
        ["v"] ["f"]).2.log = "V" ++ "F" ++ "L" := by
  refine ⟨?_, ?_, ?_⟩
  · exact ((vert_frag_short_circuit oracleCompileFail GlState.init
      ["v"] ["f"]).1 (by decide)).1
  · exact (((vert_frag_short_circuit oracleFragFail GlState.init
      ["v"] ["bad"]).2).1 (by decide) (by decide)).2.2
  · exact (((vert_frag_short_circuit oracleAllOk GlState.init
      ["v"] ["f"]).2).2 (by decide) (by decide) (by decide)).2

/-- C5: for a render builder over a texture and screen of equal nonzero
size, the terminal `go` with neither `.src()` nor `.dst()` called issues
the same draw as `go` with the source rect explicitly set to the full
texture extent and the destination rect to the full screen, and the
normalized `src_pos_size` and `dst_pos_size` uniforms of that draw are
the rect (0, 0, 1, 1) on both axes. -/
theorem render_default_rects (id w h : Nat) (t : Option (ℚ × ℚ × ℚ × ℚ))
    (so : Option (ℚ × ℚ)) (hw : 0 < w) (hh : 0 < h) :
    RenderBuilder.go ⟨id, (w, h), ((w : ℚ), (h : ℚ)), none, none, t, so⟩ =
      RenderBuilder.go
        ((RenderBuilder.withDst
          (RenderBuilder.withSrc
            ⟨id, (w, h), ((w : ℚ), (h : ℚ)), none, none, t, so⟩
            ⟨0, 0, (w : ℚ), (h : ℚ)⟩)
          ⟨0, 0, (w : ℚ), (h : ℚ)⟩)) ∧
    (RenderBuilder.go
        ⟨id, (w, h), ((w : ℚ), (h : ℚ)), none, none, t, so⟩).srcPosSize =
      ⟨0, 0, 1, 1⟩ ∧
    (RenderBuilder.go
        ⟨id, (w, h), ((w : ℚ), (h : ℚ)), none, none, t, so⟩).dstPosSize =
      ⟨0, 0, 1, 1⟩ := by
  have hwq : ((w : ℚ)) ≠ 0 := by
    exact_mod_cast Nat.pos_iff_ne_zero.mp hw
  have hhq : ((h : ℚ)) ≠ 0 := by
    exact_mod_cast Nat.pos_iff_ne_zero.mp hh
  refine ⟨rfl, ?_, ?_⟩
  · simp [RenderBuilder.go, zero_div, div_self hwq, div_self hhq]
  · simp [RenderBuilder.go, zero_div, div_self hwq, div_self hhq]

/-- Witness for C5 at the 100×50 texture/screen of the specification. -/
theorem render_default_rects_witness :
    RenderBuilder.go ⟨7, (100, 50), ((100 : ℚ), (50 : ℚ)),
        none, none, none, none⟩ =
      RenderBuilder.go
        ((RenderBuilder.withDst
          (RenderBuilder.withSrc
            ⟨7, (100, 50), ((100 : ℚ), (50 : ℚ)), none, none, none, none⟩
            ⟨0, 0, (100 : ℚ), (50 : ℚ)⟩)
          ⟨0, 0, (100 : ℚ), (50 : ℚ)⟩)) ∧
    (RenderBuilder.go ⟨7, (100, 50), ((100 : ℚ), (50 : ℚ)),
        none, none, none, none⟩).srcPosSize = ⟨0, 0, 1, 1⟩ ∧
    (RenderBuilder.go ⟨7, (100, 50), ((100 : ℚ), (50 : ℚ)),
        none, none, none, none⟩).dstPosSize = ⟨0, 0, 1, 1⟩ :=
  render_default_rects 7 100 50 none none (by decide) (by decide)

/-- C8 (counterexample): rendering the single character `'\t'` — a
whitespace codepoint whose glyph has no pixel bounding box — panics in
`render_char`'s `expect`, instead of advancing the cursor by the space
stride without drawing and without failing as the claim states. -/
theorem text_unknown_char_counterexample :
    TextRenderer.render fontNoBB 5 [] ['\t'] (0, 0) =
      Outcome.panic "Could not get bounding box of glyph" := by
  rfl

/-- C8 (amended): in the character loop of `TextRenderer::render`, a
space advances the cursor x by the cached `'*'` entry's stride and
issues no draw; there is no fallback for other characters — every
non-newline, non-space character is fetched from the atlas (rasterizing
on first use): if its glyph has no pixel bounding box the step panics,
and otherwise it issues exactly one draw and advances by its own
stride. -/
theorem renderStep_space_and_no_fallback (font : FontModel) (spacing : Nat)
    (startX : Int) (st : RenderState) (ch : Char) :
    (∀ e atlas', getEntry font st.atlas '*' = Outcome.ok (e, atlas') →
      renderStep font spacing startX st ' ' =
        Outcome.ok { st with x := st.x + e.stride, atlas := atlas' }) ∧
    (ch ≠ '\n' → ch ≠ ' ' →
      st.atlas.find? (fun p => p.1 = ch) = none →
      (font.glyph ch).hasBoundingBox = false →
      renderStep font spacing startX st ch =
        Outcome.panic "Could not get bounding box of glyph") ∧
    (ch ≠ '\n' → ch ≠ ' ' →
      ∀ e atlas', getEntry font st.atlas ch = Outcome.ok (e, atlas') →
      renderStep font spacing startX st ch =
        Outcome.ok
          { x := st.x + e.stride
            y := st.y
            maxX := max st.maxX (st.x + e.stride)
            maxY := max st.maxY (st.y + e.y_pos + (e.textureSize.1 : Int))
            atlas := atlas'
            draws := st.draws ++
              [⟨ch, (st.x, st.y),
                (st.x + e.x_pos, st.y + e.y_pos,
                 e.textureSize.1, e.textureSize.2)⟩] }) := by
  refine ⟨?_, ?_, ?_⟩
  · intro e atlas' hge
    simp [renderStep, hge]
  · intro hnl hsp hfind hbb
    simp [renderStep, hnl, hsp, getEntry, hfind, render_char, hbb]
  · intro hnl hsp e atlas' hge
    simp [renderStep, hnl, hsp, hge]

/-- Witness for C8 (amended): on the all-boxed font a space from the
empty atlas advances by `'*'`'s stride 5 with no draw; on the no-box
font the character `'q'` panics. -/
theorem renderStep_space_and_no_fallback_witness :
    renderStep fontAllBB 5 0 rs0 ' ' =
      Outcome.ok { rs0 with
        x := rs0.x + entryBB.stride
        atlas := [('*', entryBB)] } ∧
    renderStep fontNoBB 5 0 rs0 'q' =
      Outcome.panic "Could not get bounding box of glyph" :=
  ⟨(renderStep_space_and_no_fallback fontAllBB 5 0 rs0 'q').1
      entryBB [('*', entryBB)] rfl,
   ((renderStep_space_and_no_fallback fontNoBB 5 0 rs0 'q').2).1
      (by decide) (by decide) rfl rfl⟩

/-- C9: rendering the string `"A\nB"` at position (0, 0) — on any font
whose glyphs for `'A'` and `'B'` have bounding boxes — succeeds and
produces exactly two glyph draws, the first at cursor (0, 0) and the
second at cursor x = 0, y = spacing: the newline resets x to the
starting column and advances y by the line spacing. -/
theorem text_newline_two_draws (font : FontModel) (spacing : Nat)
    (ha : (font.glyph 'A').hasBoundingBox = true)
    (hb : (font.glyph 'B').hasBoundingBox = true) :
    ∃ fin, TextRenderer.render font spacing [] ['A', '\n', 'B'] (0, 0) =
        Outcome.ok fin ∧
      fin.draws.map GlyphDraw.ch = ['A', 'B'] ∧
      fin.draws.map GlyphDraw.cursor = [(0, 0), (0, (spacing : Int))] := by
  simp [TextRenderer.render, renderChars, renderStep, getEntry,
    render_char, ha, hb]

/-- Witness for C9 on the concrete all-boxed font with spacing 7. -/
theorem text_newline_two_draws_witness :
    ∃ fin, TextRenderer.render fontAllBB 7 [] ['A', '\n', 'B'] (0, 0) =
        Outcome.ok fin ∧
      fin.draws.map GlyphDraw.ch = ['A', 'B'] ∧
      fin.draws.map GlyphDraw.cursor = [(0, 0), (0, ((7 : Nat) : Int))] :=
  text_newline_two_draws fontAllBB 7 rfl rfl
